import Mathlib

/-!
Shallow embedding of the SeaGro real-time room messaging subsystem and
verification of its specification claims.

Sources embedded here:
- `src/server.js` — the server-side socket connection handler.
- `src/server/models/Room.js` — room schema instance methods (`addMember`).
- `src/server/models/Message.js` — message schema instance methods (`addReaction`).
- `src/unnamed/part_005` (socket service) — client connection controller
  (`initialize`, `emit`).
- `src/src/utils/errorHandler.js` — the error classifier.
- `src/src/services/chat.js` — the chat session facade (message cache,
  `handleNewMessage`, `getMessages`, `sendMessage`, typing indicator).

Identifiers are modelled as natural numbers, timestamps as natural-number
milliseconds, and the single-threaded JS event loop as explicit state passing.
-/

namespace SeaGro

/-! ## Server connection handler — `src/server.js`

The `io.on('connection', (socket) => ...)` handler registers listeners for
`joinRoom`, `sendMessage` and `disconnect` and completes the connection for
every inbound socket.  Its body never reads the handshake payload, never
verifies a credential, never emits an authentication error and never creates
a session record. -/

/-- The handshake payload of an inbound socket connection; `token` is the
bearer credential carried in the handshake (`none` when absent). -/
structure Handshake where
  token : Option String
  deriving DecidableEq, Repr

/-- Observable outcome of running the `io.on('connection')` handler of
`src/server.js` on one inbound connection. -/
structure ConnectionOutcome where
  connectionCompleted : Bool
  authErrorEmitted : Bool
  sessionCreated : Bool
  registeredHandlers : List String
  deriving DecidableEq, Repr

/-- Embedding of the connection handler in `src/server.js` lines 3–20: the
handler body ignores the handshake entirely, registers the three listeners
and lets every connection proceed. -/
def serverConnectionHandler (_hs : Handshake) : ConnectionOutcome :=
  { connectionCompleted := true
    authErrorEmitted := false
    sessionCreated := false
    registeredHandlers := ["joinRoom", "sendMessage", "disconnect"] }

/-! ## Room model — `src/server/models/Room.js` -/

/-- Member roles, from the `role` enum of the member sub-schema. -/
inductive Role where
  | admin
  | moderator
  | member
  deriving DecidableEq, Repr

/-- One entry of a room's `members` array. -/
structure RoomMember where
  user : Nat
  role : Role
  joinedAt : Nat
  lastSeen : Nat
  deriving DecidableEq, Repr

/-- The `settings` sub-document of a room (only the field the membership
methods read). -/
structure RoomSettings where
  maxMembers : Nat
  deriving DecidableEq, Repr

/-- A room document, restricted to the fields `addMember` touches. -/
structure Room where
  members : List RoomMember
  settings : RoomSettings
  lastActivity : Nat
  deriving DecidableEq, Repr

/-- Embedding of `roomSchema.methods.isMember`:
`this.members.some(m => m.user.equals(userId))`. -/
def Room.isMember (room : Room) (userId : Nat) : Bool :=
  room.members.any (fun m => m.user = userId)

/-- Embedding of `roomSchema.methods.addMember` (Room.js lines 115–136):
an existing member short-circuits to a successful no-op; a full room throws;
otherwise the member is pushed and `lastActivity` is bumped.  `now` stands
for `new Date()`. -/
def Room.addMember (room : Room) (userId : Nat) (role : Role) (now : Nat) :
    Except String Room :=
  if room.members.any (fun m => m.user = userId) then
    .ok room
  else if room.settings.maxMembers ≤ room.members.length then
    .error "Room has reached maximum member limit"
  else
    .ok { room with
          members := room.members ++
            [{ user := userId, role := role, joinedAt := now, lastSeen := now }]
          lastActivity := now }

/-- A sequence of join attempts (`userId`, `role`, timestamp) applied in
order; a rejected attempt (the thrown capacity error) leaves the stored room
unchanged, exactly as a thrown mongoose mutation does. -/
def Room.addMemberSeq (room : Room) (ops : List (Nat × Role × Nat)) : Room :=
  ops.foldl
    (fun r op =>
      match Room.addMember r op.1 op.2.1 op.2.2 with
      | .ok r' => r'
      | .error _ => r)
    room

/-- The member-list invariants of the spec: each identity occurs at most once
and the list never exceeds the configured maximum. -/
def Room.memberInv (room : Room) : Prop :=
  (room.members.map RoomMember.user).Nodup ∧
    room.members.length ≤ room.settings.maxMembers

instance (room : Room) : Decidable room.memberInv := by
  unfold Room.memberInv
  infer_instance

/-! ## Message model — `src/server/models/Message.js` -/

/-- One entry of a message's `reactions` array. -/
structure Reaction where
  user : Nat
  emoji : String
  createdAt : Nat
  deriving DecidableEq, Repr

/-- A message document, restricted to the fields `addReaction` touches. -/
structure Message where
  content : String
  sender : Nat
  room : Nat
  reactions : List Reaction
  deriving DecidableEq, Repr

/-- Embedding of `messageSchema.methods.addReaction` (Message.js lines
115–122): every existing reaction by `userId` is filtered out, then the new
reaction is pushed.  `now` stands for the `createdAt` default. -/
def Message.addReaction (msg : Message) (userId : Nat) (emoji : String)
    (now : Nat) : Message :=
  { msg with
    reactions := msg.reactions.filter (fun r => !(r.user == userId)) ++
      [{ user := userId, emoji := emoji, createdAt := now }] }

/-- A sequence of add-reaction operations (`userId`, emoji, timestamp)
applied in order. -/
def Message.addReactionSeq (msg : Message) (ops : List (Nat × String × Nat)) :
    Message :=
  ops.foldl (fun m op => Message.addReaction m op.1 op.2.1 op.2.2) msg

/-- The reaction invariant of the spec: each identity owns at most one entry
of the reaction list (no identity appears twice among the reaction owners). -/
def reactionInv (rs : List Reaction) : Prop :=
  (rs.map Reaction.user).Nodup

instance (rs : List Reaction) : Decidable (reactionInv rs) := by
  unfold reactionInv
  infer_instance

/-! ## Error taxonomy and classifier — `src/src/utils/errorHandler.js` -/

/-- The `ErrorTypes` enumeration. -/
inductive ErrType where
  | network
  | validation
  | authentication
  | authorization
  | rateLimit
  | server
  | unknown
  deriving DecidableEq, Repr

/-- An `AppError` instance: its classified type and message. -/
structure AppErr where
  type : ErrType
  msg : String
  deriving DecidableEq, Repr

/-- The shapes of thrown JS errors that `classifyError` distinguishes:
an `AppError`, an axios error carrying a `response` (with HTTP status),
an axios error carrying only a `request`, or a plain `Error` with a
message (e.g. `new Error(...)`). -/
inductive JsError where
  | app (err : AppErr)
  | httpResponse (status : Nat) (msg : String)
  | requestNoResponse
  | plain (msg : String)
  deriving DecidableEq, Repr

/-- The `errorMessages` table of errorHandler.js. -/
def defaultErrorMessage : ErrType → String
  | .network => "Network connection failed. Please check your internet connection."
  | .validation => "Please check your input and try again."
  | .authentication => "Please log in to continue."
  | .authorization => "You don\x27t have permission to perform this action."
  | .rateLimit => "Too many requests. Please wait a moment and try again."
  | .server => "Server error occurred. Please try again later."
  | .unknown => "An unexpected error occurred. Please try again."

/-- Embedding of `classifyError` (errorHandler.js lines 36–80).  `online`
stands for `navigator.onLine`.  An `AppError` passes through; otherwise an
offline browser yields a network error; an HTTP response is classified by
status; a request without response is a network error; a plain error is a
rate-limit error when its message contains both "wait" and "seconds", and
otherwise unknown. -/
def classifyError (online : Bool) (e : JsError) : AppErr :=
  match e with
  | .app a => a
  | .httpResponse status m =>
    if !online then
      { type := .network, msg := "You appear to be offline. Please check your connection." }
    else if status = 400 then { type := .validation, msg := m }
    else if status = 401 then
      { type := .authentication, msg := "Your session has expired. Please log in again." }
    else if status = 403 then
      { type := .authorization, msg := defaultErrorMessage .authorization }
    else if status = 429 then
      { type := .rateLimit, msg := defaultErrorMessage .rateLimit }
    else if status = 500 ∨ status = 502 ∨ status = 503 ∨ status = 504 then
      { type := .server, msg := defaultErrorMessage .server }
    else { type := .unknown, msg := m }
  | .requestNoResponse =>
    if !online then
      { type := .network, msg := "You appear to be offline. Please check your connection." }
    else { type := .network, msg := defaultErrorMessage .network }
  | .plain m =>
    if !online then
      { type := .network, msg := "You appear to be offline. Please check your connection." }
    else if decide ("wait".toList.IsInfix m.toList) &&
        decide ("seconds".toList.IsInfix m.toList) then
      { type := .rateLimit, msg := m }
    else { type := .unknown, msg := m }

/-! ## Client connection controller — `src/unnamed/part_005` (socket service)

The `SocketService` class fields that `initialize` and `emit` read and write.
The socket.io transport is modelled by its observable effects: which events
were handed to `socket.emit` and which promise object a caller received. -/

/-- The mutable fields of the `SocketService` singleton.  `socketLive`
models `this.socket !== null`, `connected` models `this.socket.connected`,
and `connectionPromise` holds the identity of the pending promise object
(promise identities are drawn from the counter `nextPromiseId`). -/
structure SocketState where
  socketLive : Bool
  connected : Bool
  token : Option String
  isConnecting : Bool
  connectionPromise : Option Nat
  nextPromiseId : Nat
  deriving DecidableEq, Repr

/-- What a call to `SocketService.initialize` returned, distinguishing the
four exits of the source: the thrown missing-token `AppError`, the existing
connected socket, the already-in-flight promise, and a freshly created
connection attempt (which opens a new transport). -/
inductive InitResult where
  | tokenRequired
  | existingSocket
  | inFlightPromise (pid : Nat)
  | newAttempt (pid : Nat)
  deriving DecidableEq, Repr

/-- Embedding of `SocketService.initialize` (part_005 lines 19–145).
A falsy token (absent or empty) throws an authentication `AppError`;
a connected socket with the same token is returned as-is; a pending
connection attempt returns the same promise; otherwise the token is stored,
`isConnecting` is set, any stale socket is torn down and a new transport is
opened with a fresh connection promise. -/
def socketInitialize (st : SocketState) (tok : Option String) :
    SocketState × InitResult :=
  match tok with
  | none => (st, .tokenRequired)
  | some t =>
    if t = "" then (st, .tokenRequired)
    else if st.socketLive && st.connected && st.token == some t then
      (st, .existingSocket)
    else if st.isConnecting && st.connectionPromise.isSome then
      (st, .inFlightPromise (st.connectionPromise.getD 0))
    else
      ({ st with
          token := some t
          isConnecting := true
          socketLive := true
          connected := false
          connectionPromise := some st.nextPromiseId
          nextPromiseId := st.nextPromiseId + 1 },
        .newAttempt st.nextPromiseId)

/-- One event handed to the transport (`socket.emit`), with its payload and
whether an acknowledgement callback was attached. -/
structure TransportEmit where
  event : String
  payload : String
  withAck : Bool
  deriving DecidableEq, Repr

/-- Observable outcome of one call to `SocketService.emit`: its boolean
return value, the arguments the supplied callback was invoked with (in call
order), and the events that reached `socket.emit`.  The function is total —
the source wraps the transport call in try/catch, so the call itself never
throws. -/
structure EmitOutcome where
  retval : Bool
  cbCalls : List AppErr
  transported : List TransportEmit
  deriving DecidableEq, Repr

/-- Embedding of `SocketService.emit` (part_005 lines 158–177).  When the
socket is absent or not connected it invokes the callback (when supplied)
with a network `AppError` and returns `false` without touching the
transport; otherwise it forwards the event to `socket.emit` and returns
`true`. -/
def socketEmit (st : SocketState) (event : String) (payload : String)
    (hasCallback : Bool) : EmitOutcome :=
  if !(st.socketLive && st.connected) then
    { retval := false
      cbCalls :=
        if hasCallback then
          [{ type := .network, msg := "Not connected to real-time services" }]
        else []
      transported := [] }
  else
    { retval := true
      cbCalls := []
      transported := [{ event := event, payload := payload, withAck := hasCallback }] }

/-! ## Chat session facade — `src/src/services/chat.js`

The `ChatService` class fields touched by the claims, with the JS event
loop modelled as explicit state passing and wall-clock milliseconds passed
in where the source reads timers.  The live socket transport is assumed
connected for the facade-level claims (connectivity failures are the
`SocketService.emit` model above); what the facade hands to the socket
service is recorded in the `sent` trace. -/

/-- A chat message record as the facade sees it: its `_id` and its `room`
reference (`none` when the payload carries no room — the JS truthiness
check `message.room`). -/
structure ChatMsg where
  id : Nat
  room : Option Nat
  deriving DecidableEq, Repr

/-- An outbound event emitted through the socket service. -/
inductive SockEvent where
  | typing (roomId : Nat)
  | stopTyping (roomId : Nat)
  | sendMsg (content : String) (roomId : Nat)
  deriving DecidableEq, Repr

/-- The mutable fields of the `ChatService` singleton.  `uiEvents` is the
trace of `window.dispatchEvent` republications of new messages, `sent` the
trace of outbound socket emissions, and `debounceDeadline` the pending fire
time of the lodash `debounce(.., 3000)` wrapper around `stopTyping`. -/
structure ChatState where
  currentRoom : Option Nat
  messageCache : List (Nat × List ChatMsg)
  uiEvents : List ChatMsg
  sent : List SockEvent
  debounceDeadline : Option Nat
  deriving DecidableEq, Repr

/-- `Map.get` on the message cache (`this.messageCache.get(r)` /
`this.messageCache.has(r)` via `isSome`). -/
def cacheLookup (c : List (Nat × List ChatMsg)) (r : Nat) :
    Option (List ChatMsg) :=
  match c with
  | [] => none
  | (k, v) :: rest => if k = r then some v else cacheLookup rest r

/-- `Map.set` on the message cache. -/
def cacheSet (c : List (Nat × List ChatMsg)) (r : Nat) (v : List ChatMsg) :
    List (Nat × List ChatMsg) :=
  match c with
  | [] => [(r, v)]
  | (k, w) :: rest =>
    if k = r then (r, v) :: rest else (k, w) :: cacheSet rest r v

/-- The cache truncation of `handleNewMessage`:
`if (messages.length > 100) messages.splice(0, messages.length - 100)` —
keep only the 100 most recent entries. -/
def keepLast100 {α : Type} (l : List α) : List α :=
  if l.length > 100 then l.drop (l.length - 100) else l

/-- Embedding of `ChatService.handleNewMessage` (chat.js lines 82–96): when
the message names a room that has a cache entry, the message is appended and
the entry truncated to the last 100; the event is always republished to UI
subscribers. -/
def handleNewMessage (st : ChatState) (m : ChatMsg) : ChatState :=
  let cache :=
    match m.room with
    | none => st.messageCache
    | some r =>
      match cacheLookup st.messageCache r with
      | none => st.messageCache
      | some msgs => cacheSet st.messageCache r (keepLast100 (msgs ++ [m]))
  { st with messageCache := cache, uiEvents := st.uiEvents ++ [m] }

/-- Embedding of `ChatService.getMessages` (chat.js lines 164–190).
`fetched` is the `messages` array of the HTTP collaborator's response
(`data.messages || []`).  A missing cache entry is first initialised to the
empty list; page 1 replaces the room's entry with the fetched page; any
other page prepends the fetched page before the existing entry.  The raw
response (its message list) is returned unchanged. -/
def getMessages (st : ChatState) (roomId : Nat) (page : Nat)
    (fetched : List ChatMsg) : ChatState × List ChatMsg :=
  let cache0 :=
    if (cacheLookup st.messageCache roomId).isSome then st.messageCache
    else cacheSet st.messageCache roomId []
  if page = 1 then
    ({ st with messageCache := cacheSet cache0 roomId fetched }, fetched)
  else
    ({ st with
        messageCache :=
          cacheSet cache0 roomId (fetched ++ (cacheLookup cache0 roomId).getD []) },
      fetched)

/-- Embedding of `ChatService.sendMessage` (chat.js lines 260–274).  The JS
default parameter `roomId = this.currentRoom` is the `none` case of
`roomArg`.  With no room resolved the call throws
`new Error('No room specified or joined')` before any socket traffic;
otherwise the send-message exchange is emitted over the connection. -/
def sendMessage (st : ChatState) (content : String) (roomArg : Option Nat) :
    ChatState × Except JsError Nat :=
  match (match roomArg with | some r => some r | none => st.currentRoom) with
  | none => (st, .error (.plain "No room specified or joined"))
  | some r =>
    ({ st with sent := st.sent ++ [SockEvent.sendMsg content r] }, .ok r)

/-- Embedding of `ChatService.stopTyping` (chat.js lines 298–302): with no
tracked current room it returns silently, otherwise it emits `stop-typing`
for the current room. -/
def stopTyping (st : ChatState) : ChatState :=
  match st.currentRoom with
  | none => st
  | some r => { st with sent := st.sent ++ [SockEvent.stopTyping r] }

/-- Embedding of `ChatService.startTyping` (chat.js lines 291–296) at wall
clock `now`.  The JS default parameter `roomId = this.currentRoom` is the
`none` case of `roomArg`.  With no room resolved the call returns silently;
otherwise it emits a `typing` event and (re-)arms the 3000 ms lodash
debounce timer around `stopTyping`. -/
def startTyping (st : ChatState) (now : Nat) (roomArg : Option Nat) :
    ChatState :=
  match (match roomArg with | some r => some r | none => st.currentRoom) with
  | none => st
  | some r =>
    { st with
        sent := st.sent ++ [SockEvent.typing r]
        debounceDeadline := some (now + 3000) }

/-- The event loop advancing to wall clock `now`: a pending debounce timer
whose deadline has passed fires `stopTyping` exactly once and is cleared;
otherwise nothing happens.  (lodash `debounce` schedules the trailing
invocation 3000 ms after the most recent call.) -/
def elapse (st : ChatState) (now : Nat) : ChatState :=
  match st.debounceDeadline with
  | none => st
  | some d =>
    if d ≤ now then { stopTyping st with debounceDeadline := none } else st

/-- Concrete room at capacity (two members, `maxMembers` 2) for the C2
witness. -/
def c2Room : Room :=
  { members := [{ user := 1, role := .admin, joinedAt := 0, lastSeen := 0 },
                { user := 2, role := .member, joinedAt := 0, lastSeen := 0 }]
    settings := { maxMembers := 2 }
    lastActivity := 0 }

/-- Concrete message with one prior reaction for the C9 witness. -/
def c9Msg : Message :=
  { content := "hi", sender := 1, room := 5,
    reactions := [{ user := 1, emoji := "a", createdAt := 0 }] }

/-- Disconnected socket state for the C7 witness. -/
def c7Disconnected : SocketState :=
  { socketLive := true, connected := false, token := some "tok",
    isConnecting := false, connectionPromise := none, nextPromiseId := 0 }

/-- Connected socket state for the C7 witness. -/
def c7Connected : SocketState :=
  { socketLive := true, connected := true, token := some "tok",
    isConnecting := false, connectionPromise := none, nextPromiseId := 0 }

/-- Connected socket state holding token "tok" for the C8 witness. -/
def c8Connected : SocketState :=
  { socketLive := true, connected := true, token := some "tok",
    isConnecting := false, connectionPromise := none, nextPromiseId := 3 }

/-- Mid-connection socket state with pending promise 9 for the C8 witness. -/
def c8InFlight : SocketState :=
  { socketLive := true, connected := false, token := some "tok",
    isConnecting := true, connectionPromise := some 9, nextPromiseId := 10 }

/-- Initial facade state with an empty cache entry for room 1, for the C3
witness. -/
def c3State : ChatState :=
  { currentRoom := none, messageCache := [(1, [])], uiEvents := [],
    sent := [], debounceDeadline := none }

/-- 150 distinct messages for room 1, for the C3 witness. -/
def c3Msgs : List ChatMsg :=
  (List.range 150).map (fun i => { id := i, room := some 1 })

/-- The message with identifier 1 in room 5, used by the C4
counterexample. -/
def c4DupMsg : ChatMsg :=
  { id := 1, room := some 5 }

/-- Facade state whose cache for room 5 already holds `c4DupMsg`, used by
the C4 counterexample. -/
def c4DupState : ChatState :=
  { currentRoom := none, messageCache := [(5, [c4DupMsg])],
    uiEvents := [], sent := [], debounceDeadline := none }

/-- The cached page-1 message for the C4 witness. -/
def c4Existing : List ChatMsg :=
  [{ id := 10, room := some 5 }]

/-- The page-2 fetch result for the C4 witness. -/
def c4Fetched : List ChatMsg :=
  [{ id := 20, room := some 5 }]

/-- Facade state caching one page-1 message for room 5, for the C4
witness. -/
def c4State : ChatState :=
  { currentRoom := none, messageCache := [(5, c4Existing)],
    uiEvents := [], sent := [], debounceDeadline := none }

/-- The spec's typing scenario starting from `st` at wall clock `t` for room
`r`: three `startTyping` calls at 1-second intervals, then the event loop
advancing through 3 seconds of silence after the last call. -/
def typingRun (st : ChatState) (t r : Nat) : ChatState :=
  elapse
    (startTyping
      (elapse
        (startTyping
          (elapse (startTyping st t (some r)) (t + 1000))
          (t + 1000) (some r))
        (t + 2000))
      (t + 2000) (some r))
    (t + 5000)

/-- Idle facade state tracking room 7 as current, for the C5 scenario. -/
def typingState0 : ChatState :=
  { currentRoom := some 7, messageCache := [], uiEvents := [], sent := [],
    debounceDeadline := none }

/-- Facade state with no tracked current room, for C6 and C10. -/
def noRoomState : ChatState :=
  { currentRoom := none, messageCache := [], uiEvents := [], sent := [],
    debounceDeadline := none }

theorem Room.addMember_preserves_inv (room : Room) (u : Nat) (ρ : Role) (t : Nat)
    (h : room.memberInv) :
    (match Room.addMember room u ρ t with
      | .ok r' => r'
      | .error _ => room).memberInv := by
  unfold Room.addMember
  by_cases hmem : room.members.any (fun m => m.user = u)
  · simp [hmem, h]
  · simp only [hmem, Bool.false_eq_true, if_false]
    by_cases hcap : room.settings.maxMembers ≤ room.members.length
    · simp [hcap, h]
    · simp only [hcap, if_false]
      obtain ⟨hnd, hlen⟩ := h
      refine ⟨?_, ?_⟩
      · simp only [List.map_append, List.map_cons, List.map_nil]
        rw [List.nodup_append]
        refine ⟨hnd, List.nodup_singleton u, ?_⟩
        intro a ha hb
        simp only [List.mem_singleton] at hb
        subst hb
        simp only [List.mem_map] at ha
        obtain ⟨m, hm, hmu⟩ := ha
        rw [List.any_eq_true] at hmem
        exact hmem ⟨m, hm, by simp [hmu]⟩
      · simp only [List.length_append, List.length_cons, List.length_nil]
        omega

theorem Room.addMemberSeq_preserves_inv (ops : List (Nat × Role × Nat)) :
    ∀ room : Room, room.memberInv → (Room.addMemberSeq room ops).memberInv := by
  induction ops with
  | nil => intro room h; exact h
  | cons op rest ih =>
    intro room h
    have hstep := Room.addMember_preserves_inv room op.1 op.2.1 op.2.2 h
    unfold Room.addMemberSeq
    simp only [List.foldl_cons]
    exact ih _ (by
      revert hstep
      cases Room.addMember room op.1 op.2.1 op.2.2 with
      | ok r' => intro hstep; exact hstep
      | error e => intro hstep; exact hstep)

theorem Message.addReaction_preserves_inv (msg : Message) (u : Nat)
    (e : String) (t : Nat) (h : reactionInv msg.reactions) :
    reactionInv (Message.addReaction msg u e t).reactions := by
  unfold Message.addReaction reactionInv
  simp only [List.map_append, List.map_cons, List.map_nil]
  rw [List.nodup_append]
  refine ⟨(h.sublist ((List.filter_sublist _).map _)), List.nodup_singleton u, ?_⟩
  intro a ha hb
  simp only [List.mem_singleton] at hb
  subst hb
  simp only [List.mem_map, List.mem_filter] at ha
  obtain ⟨r, ⟨_, hr⟩, hru⟩ := ha
  simp only [Bool.not_eq_true', beq_eq_false_iff_ne, ne_eq] at hr
  exact hr (by simp [hru])

theorem Message.addReactionSeq_preserves_inv (ops : List (Nat × String × Nat)) :
    ∀ msg : Message, reactionInv msg.reactions →
      reactionInv (Message.addReactionSeq msg ops).reactions := by
  induction ops with
  | nil => intro msg h; exact h
  | cons op rest ih =>
    intro msg h
    unfold Message.addReactionSeq
    simp only [List.foldl_cons]
    exact ih _ (Message.addReaction_preserves_inv msg op.1 op.2.1 op.2.2 h)

/-! ## Cache lemmas -/

@[simp]
theorem cacheLookup_cacheSet_self (c : List (Nat × List ChatMsg)) (r : Nat)
    (v : List ChatMsg) : cacheLookup (cacheSet c r v) r = some v := by
  induction c with
  | nil => simp [cacheSet, cacheLookup]
  | cons kv rest ih =>
    obtain ⟨k, w⟩ := kv
    by_cases hk : k = r
    · simp [cacheSet, cacheLookup, hk]
    · simp [cacheSet, cacheLookup, hk, ih]

theorem keepLast100_eq_drop {α : Type} (l : List α) :
    keepLast100 l = l.drop (l.length - 100) := by
  unfold keepLast100
  split
  · rfl
  · rename_i h
    have h0 : l.length - 100 = 0 := by omega
    rw [h0, List.drop_zero]

theorem take_append_take {α : Type} (x y : List α) (n : Nat) :
    (x ++ y.take n).take n = (x ++ y).take n := by
  rw [List.take_append_eq_append_take, List.take_append_eq_append_take,
    List.take_take, min_eq_left (Nat.sub_le n x.length)]

theorem keepLast100_append {α : Type} (a b : List α) :
    keepLast100 (keepLast100 a ++ b) = keepLast100 (a ++ b) := by
  have hk : ∀ l : List α, keepLast100 l = l.rtake 100 := by
    intro l
    rw [keepLast100_eq_drop]
    rfl
  rw [hk, hk, hk, List.rtake_eq_reverse_take_reverse,
    List.rtake_eq_reverse_take_reverse, List.rtake_eq_reverse_take_reverse,
    List.reverse_append, List.reverse_append, List.reverse_reverse]
  exact congrArg List.reverse (take_append_take _ _ 100)

/-- Folding "append then truncate" over at least one message equals
appending everything and truncating once. -/
theorem foldl_keepLast100_append (ms : List ChatMsg) :
    ∀ (cur : List ChatMsg) (m0 : ChatMsg),
      List.foldl (fun acc m => keepLast100 (acc ++ [m])) cur (m0 :: ms) =
        keepLast100 (cur ++ m0 :: ms) := by
  induction ms with
  | nil => intro cur m0; simp [List.foldl]
  | cons m1 rest ih =>
    intro cur m0
    simp only [List.foldl_cons]
    have h := ih (keepLast100 (cur ++ [m0])) m1
    simp only [List.foldl_cons] at h
    rw [h, keepLast100_append]
    simp

theorem handleNewMessage_lookup (st : ChatState) (m : ChatMsg) (r : Nat)
    (cur : List ChatMsg) (hr : m.room = some r)
    (hc : cacheLookup st.messageCache r = some cur) :
    cacheLookup (handleNewMessage st m).messageCache r =
      some (keepLast100 (cur ++ [m])) := by
  unfold handleNewMessage
  simp only [hr, hc, cacheLookup_cacheSet_self]

theorem foldl_handleNewMessage_lookup (ms : List ChatMsg) :
    ∀ (st : ChatState) (r : Nat) (cur : List ChatMsg),
      (∀ m ∈ ms, m.room = some r) →
      cacheLookup st.messageCache r = some cur →
      cacheLookup (List.foldl handleNewMessage st ms).messageCache r =
        some (List.foldl (fun acc m => keepLast100 (acc ++ [m])) cur ms) := by
  induction ms with
  | nil =>
    intro st r cur _ hc
    simpa using hc
  | cons m rest ih =>
    intro st r cur hall hc
    simp only [List.foldl_cons]
    exact ih _ r _ (fun x hx => hall x (List.mem_cons_of_mem _ hx))
      (handleNewMessage_lookup st m r cur (hall m (List.mem_cons_self _ _)) hc)

theorem foldl_handleNewMessage_ui (ms : List ChatMsg) :
    ∀ st : ChatState,
      (List.foldl handleNewMessage st ms).uiEvents = st.uiEvents ++ ms := by
  induction ms with
  | nil =>
    intro st
    simp
  | cons m rest ih =>
    intro st
    simp only [List.foldl_cons]
    rw [ih]
    simp [handleNewMessage]

theorem keepLast100_append_of_length_150 (cur ms : List ChatMsg)
    (h : ms.length = 150) : keepLast100 (cur ++ ms) = ms.drop 50 := by
  rw [keepLast100_eq_drop, List.drop_append_eq_append_drop]
  have h1 : cur.length ≤ (cur ++ ms).length - 100 := by
    rw [List.length_append, h]
    omega
  have h2 : (cur ++ ms).length - 100 - cur.length = 50 := by
    rw [List.length_append, h]
    omega
  rw [List.drop_eq_nil_of_le h1, h2, List.nil_append]

/-! ## Claim theorems -/

/-- Claim C1: the spec requires the server-side connection handler to refuse
connections whose handshake carries no valid credential, surface an
authentication error and create no session.  The handler in `src/server.js`
does none of this: evaluated on a handshake with no credential at all, it
completes the connection, emits no authentication error and creates no
session — every connection proceeds unauthenticated.  This contradicts the
client counterpart (which sends its token and handles `auth_error`) and the
repository documentation of JWT-authenticated sockets. -/
theorem serverJs_accepts_missing_credential :
    (serverConnectionHandler { token := none }).connectionCompleted = true ∧
    (serverConnectionHandler { token := none }).authErrorEmitted = false ∧
    (serverConnectionHandler { token := none }).sessionCreated = false :=
  ⟨rfl, rfl, rfl⟩

/-- Claim C2: `Room.addMember` succeeds as a no-op for an existing member,
rejects a non-member when the member list has reached `maxMembers`, and
consequently, under any sequence of add-member operations, each identity
appears at most once in the member list and the list never exceeds the
configured maximum. -/
theorem room_addMember_member_invariants (room : Room) (u : Nat) (ρ : Role)
    (t : Nat) :
    (room.isMember u = true → Room.addMember room u ρ t = .ok room) ∧
    (room.isMember u = false →
      room.settings.maxMembers ≤ room.members.length →
      Room.addMember room u ρ t =
        .error "Room has reached maximum member limit") ∧
    (room.memberInv → ∀ ops, (Room.addMemberSeq room ops).memberInv) := by
  refine ⟨?_, ?_, ?_⟩
  · intro h
    rw [Room.isMember] at h
    simp [Room.addMember, h]
  · intro h hcap
    rw [Room.isMember] at h
    simp [Room.addMember, h, hcap]
  · intro h ops
    exact Room.addMemberSeq_preserves_inv ops room h

theorem room_addMember_member_invariants_witness :
    Room.addMember c2Room 1 Role.member 5 = .ok c2Room ∧
    Room.addMember c2Room 3 Role.member 5 =
      .error "Room has reached maximum member limit" ∧
    (Room.addMemberSeq c2Room [(3, Role.member, 5), (1, Role.member, 6)]).memberInv := by
  refine ⟨(room_addMember_member_invariants c2Room 1 Role.member 5).1 (by decide),
    (room_addMember_member_invariants c2Room 3 Role.member 5).2.1 (by decide) (by decide),
    (room_addMember_member_invariants c2Room 0 Role.member 0).2.2 (by decide) _⟩

/-- Claim C9: `Message.addReaction` replaces any existing reaction by the
acting identity — afterwards that identity owns exactly the new reaction —
and therefore any sequence of add-reaction operations keeps at most one
reaction per identity. -/
theorem message_addReaction_at_most_one (msg : Message) (u : Nat) (e : String)
    (t : Nat) :
    ((Message.addReaction msg u e t).reactions.filter (fun r => r.user == u) =
      [{ user := u, emoji := e, createdAt := t }]) ∧
    (reactionInv msg.reactions →
      ∀ ops, reactionInv (Message.addReactionSeq msg ops).reactions) := by
  constructor
  · unfold Message.addReaction
    simp only [List.filter_append]
    have h0 : (msg.reactions.filter (fun r => !(r.user == u))).filter
        (fun r => r.user == u) = [] := by
      rw [List.filter_eq_nil_iff]
      intro r hr
      simp only [List.mem_filter, Bool.not_eq_true', beq_eq_false_iff_ne] at hr
      simp [hr.2]
    rw [h0]
    simp
  · intro h ops
    exact Message.addReactionSeq_preserves_inv ops msg h

theorem message_addReaction_at_most_one_witness :
    ((Message.addReaction c9Msg 1 "b" 3).reactions.filter
        (fun r => r.user == 1) =
      [{ user := 1, emoji := "b", createdAt := 3 }]) ∧
    reactionInv (Message.addReactionSeq c9Msg
      [(1, "b", 3), (2, "c", 4), (1, "d", 5)]).reactions := by
  refine ⟨(message_addReaction_at_most_one c9Msg 1 "b" 3).1,
    (message_addReaction_at_most_one c9Msg 0 "z" 0).2 (by decide) _⟩

/-- Claim C7: when the controller is not connected, `emit` fails
synchronously (it returns `false` — the embedding is a total function, so
nothing is thrown), invokes the supplied callback with an error, and hands
nothing to the transport; when connected it forwards the event to the
transport. -/
theorem socket_emit_behaviour (st : SocketState) (event payload : String)
    (hasCb : Bool) :
    ((st.socketLive && st.connected) = false →
      (socketEmit st event payload hasCb).retval = false ∧
      (socketEmit st event payload hasCb).transported = [] ∧
      (hasCb = true →
        (socketEmit st event payload hasCb).cbCalls =
          [{ type := ErrType.network,
             msg := "Not connected to real-time services" }])) ∧
    ((st.socketLive && st.connected) = true →
      (socketEmit st event payload hasCb).transported =
        [{ event := event, payload := payload, withAck := hasCb }] ∧
      (socketEmit st event payload hasCb).retval = true ∧
      (socketEmit st event payload hasCb).cbCalls = []) := by
  constructor
  · intro h
    refine ⟨by simp [socketEmit, h], by simp [socketEmit, h], ?_⟩
    intro hcb
    simp [socketEmit, h, hcb]
  · intro h
    refine ⟨by simp [socketEmit, h], by simp [socketEmit, h],
      by simp [socketEmit, h]⟩

theorem socket_emit_behaviour_witness :
    ((socketEmit c7Disconnected "typing" "p" true).retval = false ∧
      (socketEmit c7Disconnected "typing" "p" true).transported = [] ∧
      (socketEmit c7Disconnected "typing" "p" true).cbCalls =
        [{ type := ErrType.network,
           msg := "Not connected to real-time services" }]) ∧
    (socketEmit c7Connected "typing" "p" true).transported =
      [{ event := "typing", payload := "p", withAck := true }] := by
  have h1 := (socket_emit_behaviour c7Disconnected "typing" "p" true).1 (by decide)
  have h2 := (socket_emit_behaviour c7Connected "typing" "p" true).2 (by decide)
  exact ⟨⟨h1.1, h1.2.1, h1.2.2 rfl⟩, h2.1⟩

/-- Claim C8: `initialize` is idempotent — already connected with the same
credential it returns the existing socket and changes nothing (no new
transport is opened), and with an attempt already in flight it returns that
same pending promise rather than starting a second attempt. -/
theorem socket_initialize_idempotent (st : SocketState) (t : String) (p : Nat)
    (ht : t ≠ "") :
    (st.socketLive = true → st.connected = true → st.token = some t →
      socketInitialize st (some t) = (st, InitResult.existingSocket)) ∧
    ((st.socketLive && st.connected && st.token == some t) = false →
      st.isConnecting = true → st.connectionPromise = some p →
      socketInitialize st (some t) = (st, InitResult.inFlightPromise p)) := by
  constructor
  · intro h1 h2 h3
    simp [socketInitialize, ht, h1, h2, h3]
  · intro h h1 h2
    simp [socketInitialize, ht, h, h1, h2]

theorem socket_initialize_idempotent_witness :
    socketInitialize c8Connected (some "tok") =
      (c8Connected, InitResult.existingSocket) ∧
    socketInitialize c8InFlight (some "tok") =
      (c8InFlight, InitResult.inFlightPromise 9) := by
  refine ⟨(socket_initialize_idempotent c8Connected "tok" 0 (by decide)).1
      rfl rfl rfl,
    (socket_initialize_idempotent c8InFlight "tok" 9 (by decide)).2
      (by decide) rfl rfl⟩

/-- Claim C3: `handleNewMessage` always republishes every event to local UI
subscribers in arrival order, and for a room with a cache entry it appends
and truncates so that after 150 sequential events the entry holds exactly
the most recent 100 in arrival order (the final 100 of the 150, oldest
dropped first). -/
theorem chat_newMessage_cache_bound (st : ChatState) (ms : List ChatMsg)
    (r : Nat) (cur : List ChatMsg) :
    (List.foldl handleNewMessage st ms).uiEvents = st.uiEvents ++ ms ∧
    (cacheLookup st.messageCache r = some cur →
      (∀ m ∈ ms, m.room = some r) →
      ms.length = 150 →
      cacheLookup (List.foldl handleNewMessage st ms).messageCache r =
          some (ms.drop 50) ∧
        (ms.drop 50).length = 100) := by
  refine ⟨foldl_handleNewMessage_ui ms st, ?_⟩
  intro hc hall hlen
  cases ms with
  | nil => simp at hlen
  | cons m0 rest =>
    have hl := foldl_handleNewMessage_lookup (m0 :: rest) st r cur hall hc
    rw [foldl_keepLast100_append rest cur m0,
      keepLast100_append_of_length_150 cur (m0 :: rest) hlen] at hl
    refine ⟨hl, ?_⟩
    rw [List.length_drop, hlen]

theorem chat_newMessage_cache_bound_witness :
    (List.foldl handleNewMessage c3State c3Msgs).uiEvents =
      c3State.uiEvents ++ c3Msgs ∧
    cacheLookup (List.foldl handleNewMessage c3State c3Msgs).messageCache 1 =
      some (c3Msgs.drop 50) ∧
    (c3Msgs.drop 50).length = 100 := by
  have h := chat_newMessage_cache_bound c3State c3Msgs 1 []
  have hall : ∀ m ∈ c3Msgs, m.room = some 1 := by
    intro m hm
    rw [c3Msgs, List.mem_map] at hm
    obtain ⟨i, _, rfl⟩ := hm
    rfl
  have hlen : c3Msgs.length = 150 := by
    rw [c3Msgs, List.length_map, List.length_range]
  have h2 := h.2 rfl hall hlen
  exact ⟨h.1, h2.1, h2.2⟩

/-- Claim C4 counterexample: `getMessages` performs no deduplication on a
page > 1 prepend.  With room 5's cache holding the message with identifier 1
and a page-2 fetch returning that same message, the resulting cache holds
identifier 1 twice — refuting the claim that the resulting cache never
contains duplicate message identifiers. -/
theorem chat_getMessages_duplicate_id :
    cacheLookup (getMessages c4DupState 5 2 [c4DupMsg]).1.messageCache 5 =
      some [c4DupMsg, c4DupMsg] ∧
    ¬ ((((cacheLookup (getMessages c4DupState 5 2
        [c4DupMsg]).1.messageCache 5).getD []).map ChatMsg.id).Nodup) := by
  decide

/-- Claim C4 (amended): page 1 replaces the room's cache entry with the
fetched page; page > 1 prepends the fetched page before the existing entry;
in both cases the raw fetch result is returned; and the prepended cache has
no duplicate identifiers provided the fetched page's identifiers are
duplicate-free and disjoint from those already cached (the code itself
performs no deduplication). -/
theorem chat_getMessages_replace_prepend (st : ChatState)
    (roomId page : Nat) (fetched existing : List ChatMsg) :
    (cacheLookup (getMessages st roomId 1 fetched).1.messageCache roomId =
        some fetched ∧
      (getMessages st roomId 1 fetched).2 = fetched) ∧
    (page ≠ 1 →
      cacheLookup st.messageCache roomId = some existing →
      cacheLookup (getMessages st roomId page fetched).1.messageCache roomId =
          some (fetched ++ existing) ∧
        (getMessages st roomId page fetched).2 = fetched ∧
        ((fetched.map ChatMsg.id).Nodup →
          (existing.map ChatMsg.id).Nodup →
          (∀ i ∈ fetched.map ChatMsg.id, i ∉ existing.map ChatMsg.id) →
          ((fetched ++ existing).map ChatMsg.id).Nodup)) := by
  constructor
  · constructor
    · unfold getMessages
      by_cases h : (cacheLookup st.messageCache roomId).isSome <;>
        simp [h]
    · unfold getMessages
      by_cases h : (cacheLookup st.messageCache roomId).isSome <;>
        simp [h]
  · intro hp hc
    have h1 : (cacheLookup st.messageCache roomId).isSome := by
      rw [hc]
      rfl
    refine ⟨?_, ?_, ?_⟩
    · unfold getMessages
      simp [h1, hp, hc]
    · unfold getMessages
      simp [h1, hp]
    · intro hnf hne hdisj
      rw [List.map_append, List.nodup_append]
      exact ⟨hnf, hne, fun a ha hb => hdisj a ha hb⟩

theorem chat_getMessages_replace_prepend_witness :
    cacheLookup (getMessages c4State 5 1 c4Fetched).1.messageCache 5 =
      some c4Fetched ∧
    cacheLookup (getMessages c4State 5 2 c4Fetched).1.messageCache 5 =
      some (c4Fetched ++ c4Existing) ∧
    ((c4Fetched ++ c4Existing).map ChatMsg.id).Nodup := by
  have h := chat_getMessages_replace_prepend c4State 5 2 c4Fetched c4Existing
  have h2 := h.2 (by decide) (by decide)
  exact ⟨h.1.1, h2.1, h2.2.2 (by decide) (by decide) (by decide)⟩

/-- Claim C5 counterexample: `startTyping` emits a `typing` event on every
call — only the stop side is debounced.  Three calls at 1-second intervals
emit three `typing` events, not exactly one as the claim states (the
stop-typing half of the claim does hold: exactly one after the silence). -/
theorem chat_startTyping_three_calls_three_events :
    (typingRun typingState0 0 7).sent.count (SockEvent.typing 7) = 3 ∧
    (typingRun typingState0 0 7).sent.count (SockEvent.stopTyping 7) = 1 ∧
    (typingRun typingState0 0 7).sent.count (SockEvent.typing 7) ≠ 1 := by
  decide

/-- Claim C5 (amended): calling `startTyping(R)` three times at 1-second
intervals emits one `typing` event per call (three in total — the debounce
applies only to the stop side, each call re-arming the timer), and after 3
seconds of silence following the last call exactly one `stop-typing` event
fires, provided `R` is the tracked current room; afterwards the timer is
disarmed and no further event can fire. -/
theorem chat_typing_debounce (st : ChatState) (t r : Nat)
    (hroom : st.currentRoom = some r) :
    (typingRun st t r).sent =
      st.sent ++ [SockEvent.typing r, SockEvent.typing r, SockEvent.typing r,
        SockEvent.stopTyping r] ∧
    (typingRun st t r).debounceDeadline = none ∧
    ∀ t', elapse (typingRun st t r) t' = typingRun st t r := by
  have hne1 : ¬ (t + 3000 ≤ t + 1000) := by omega
  have hne2 : ¬ (t + 1000 + 3000 ≤ t + 2000) := by omega
  have hyes : t + 2000 + 3000 ≤ t + 5000 := by omega
  have hrun : typingRun st t r =
      { st with
          sent := st.sent ++ [SockEvent.typing r, SockEvent.typing r,
            SockEvent.typing r, SockEvent.stopTyping r]
          debounceDeadline := none } := by
    rw [typingRun]
    simp [startTyping, elapse, stopTyping, hroom, hne1, hne2, hyes]
  refine ⟨by rw [hrun], by rw [hrun], ?_⟩
  intro t'
  rw [hrun]
  simp [elapse]

theorem chat_typing_debounce_witness :
    (typingRun typingState0 0 7).sent =
      typingState0.sent ++ [SockEvent.typing 7, SockEvent.typing 7,
        SockEvent.typing 7, SockEvent.stopTyping 7] ∧
    (typingRun typingState0 0 7).debounceDeadline = none ∧
    elapse (typingRun typingState0 0 7) 999999 = typingRun typingState0 0 7 := by
  have h := chat_typing_debounce typingState0 0 7 rfl
  exact ⟨h.1, h.2.1, h.2.2 999999⟩

/-- Claim C6 counterexample: with no room resolved, `sendMessage` rejects
before any socket traffic, but the rejection is a plain
`Error('No room specified or joined')`, which the error handler classifies
as UNKNOWN, not as a validation error — refuting the claimed
validation-classified rejection. -/
theorem chat_sendMessage_unknown_classification :
    (sendMessage noRoomState "hello" none).2 =
      Except.error (JsError.plain "No room specified or joined") ∧
    (sendMessage noRoomState "hello" none).1.sent = [] ∧
    (classifyError true
        (JsError.plain "No room specified or joined")).type = ErrType.unknown ∧
    (classifyError true
        (JsError.plain "No room specified or joined")).type ≠
      ErrType.validation := by
  refine ⟨rfl, by decide, by decide, by decide⟩

/-- Claim C6 (amended): with no room resolved (no explicit argument and no
tracked current room) `sendMessage` rejects immediately with the plain error
"No room specified or joined" and issues no network call — nothing is
emitted over the connection; the error handler classifies this error as
UNKNOWN (never as a validation error), since it is not an `AppError`. -/
theorem chat_sendMessage_failfast (st : ChatState) (content : String)
    (h : st.currentRoom = none) :
    sendMessage st content none =
      (st, Except.error (JsError.plain "No room specified or joined")) ∧
    (sendMessage st content none).1.sent = st.sent ∧
    (∀ online, (classifyError online
        (JsError.plain "No room specified or joined")).type ≠
      ErrType.validation) ∧
    (classifyError true
        (JsError.plain "No room specified or joined")).type =
      ErrType.unknown := by
  have h1 : sendMessage st content none =
      (st, Except.error (JsError.plain "No room specified or joined")) := by
    simp [sendMessage, h]
  exact ⟨h1, by rw [h1], by decide, by decide⟩

theorem chat_sendMessage_failfast_witness :
    sendMessage noRoomState "hello" none =
      (noRoomState,
        Except.error (JsError.plain "No room specified or joined")) ∧
    (sendMessage noRoomState "hello" none).1.sent = noRoomState.sent ∧
    (classifyError true
        (JsError.plain "No room specified or joined")).type ≠
      ErrType.validation := by
  have h := chat_sendMessage_failfast noRoomState "hello" rfl
  exact ⟨h.1, h.2.1, h.2.2.1 true⟩

/-- Claim C10: `startTyping` with no explicit room and no tracked current
room returns silently — the state is unchanged (no typing event is emitted,
the debounce timer is not armed) and no error is raised (the embedding is a
total function returning the state itself, mirroring the bare `return`). -/
theorem chat_startTyping_silent_no_room (st : ChatState) (now : Nat)
    (h : st.currentRoom = none) :
    startTyping st now none = st ∧
    (startTyping st now none).sent = st.sent ∧
    (startTyping st now none).debounceDeadline = st.debounceDeadline := by
  have h1 : startTyping st now none = st := by
    simp [startTyping, h]
  exact ⟨h1, by rw [h1], by rw [h1]⟩

theorem chat_startTyping_silent_no_room_witness :
    startTyping noRoomState 42 none = noRoomState ∧
    (startTyping noRoomState 42 none).sent = noRoomState.sent := by
  have h := chat_startTyping_silent_no_room noRoomState 42 rfl
  exact ⟨h.1, h.2.1⟩

end SeaGro

